import Mathlib

/-!
Verification of the eigobot payment-reconciliation and daily fan-out core.

Shallow embedding of `src/telegramBot.js` (pending-payment ledger, dual-rail
matcher, reconciliation loop, event deduplication, concurrency guard) and
`src/scheduler.js` (daily fan-out). JS `Map`/`Set` state is modelled with
association lists and string lists; `async` control flow is modelled by
passing the sequence of external results (ledger fetches, generation and
persistence outcomes) as explicit oracles. JS truthiness of optional fields
is modelled with `Option`, where `none` stands for an absent or falsy value.
-/

namespace Eigobot

/-- JS `s.includes(sub)`: `sub` occurs contiguously inside `s`. -/
def strContains (s sub : String) : Bool :=
  decide (sub.data <:+: s.data)

/-- Jetton (token) transfer metadata of a decoded message body, as read by
`handleCheckPayment` (telegramBot.js lines 597–613). `forward_ton_amount`
and `forward_payload` are `Option`s: `none` models an absent or falsy
(zero / empty) field, which fails the JS truthiness guards. -/
structure JettonTransfer where
  jetton_master_address : String
  amount : Nat
  forward_ton_amount : Option Nat
  forward_payload : Option String
deriving DecidableEq

/-- A decoded message body: an optional text comment (memo) and optional
jetton-transfer metadata. -/
structure DecodedBody where
  text : Option String
  jetton_transfer : Option JettonTransfer
deriving DecidableEq

/-- An outbound message of a ledger transaction. `source` and `destination`
record the truthiness of the corresponding fields, tested at
telegramBot.js line 593. -/
structure OutMsg where
  source : Bool
  destination : Bool
  decoded_body : Option DecodedBody
deriving DecidableEq

/-- An inbound message of a ledger transaction. -/
structure InMsg where
  decoded_body : Option DecodedBody
deriving DecidableEq

/-- A ledger transaction as consumed by the matcher: one optional inbound
message and a list of outbound messages. -/
structure Transaction where
  in_msg : Option InMsg
  out_msgs : List OutMsg
deriving DecidableEq

/-- A pending payment as stored by `handleSubscribe` (telegramBot.js lines
314–320). The float display field `tonAmount` is omitted: it is never read
by the matcher or the reconciliation loop. -/
structure PendingPayment where
  reference : String
  amount : Nat
  usdtAmount : Nat
  timestamp : Nat
deriving DecidableEq

/-- Modelled from the spec: the configuration module (`./config`) is not
under src/; its fields are named after the properties the source reads
(`config.USDT_CONTRACT_ADDRESS`, `config.USDT_AMOUNT`,
`config.TON_CONVERSIONS.MICRO_USDT_TO_USDT`, `config.SUBSCRIPTION_DAYS`,
`config.PAYMENT_CHECK.MAX_ATTEMPTS`). All claims are parametric in these
values. -/
structure Config where
  USDT_CONTRACT_ADDRESS : String
  USDT_AMOUNT : Nat
  MICRO_USDT_TO_USDT : Nat
  SUBSCRIPTION_DAYS : Nat
  MAX_ATTEMPTS : Nat
deriving DecidableEq

/-- `Math.floor(config.USDT_AMOUNT * config.TON_CONVERSIONS.MICRO_USDT_TO_USDT)`
(telegramBot.js line 601); `Math.floor` is the identity on these integer
config values. -/
def expectedMicroUsdt (cfg : Config) : Nat :=
  cfg.USDT_AMOUNT * cfg.MICRO_USDT_TO_USDT

/-- The native-rail memo test of telegramBot.js lines 555 and 569:
`messageText === reference || messageText.includes(reference)`. -/
def memoMatches (ref memo : String) : Bool :=
  memo == ref || strContains memo ref

/-- Native-rail check of one transaction (telegramBot.js lines 550–580):
the inbound message's decoded text, or any outbound message's decoded text,
passes the memo test. -/
def txNativeMatch (ref : String) (tx : Transaction) : Bool :=
  (match tx.in_msg with
   | some im =>
     match im.decoded_body with
     | some db =>
       match db.text with
       | some t => memoMatches ref t
       | none => false
     | none => false
   | none => false)
  ||
  tx.out_msgs.any (fun m =>
    match m.decoded_body with
    | some db =>
      match db.text with
      | some t => memoMatches ref t
      | none => false
    | none => false)

/-- Token-rail check of one outbound message (telegramBot.js lines 591–619):
truthy `source` and `destination`, a decoded body holding a jetton transfer
to the configured USDT contract, amount at least the expected micro-USDT
amount, a truthy `forward_ton_amount`, and a forward payload that contains
(or equals) the reference. -/
def outMsgJetton (cfg : Config) (ref : String) (m : OutMsg) : Bool :=
  m.source && m.destination &&
  (match m.decoded_body with
   | some body =>
     match body.jetton_transfer with
     | some jt =>
       (jt.jetton_master_address == cfg.USDT_CONTRACT_ADDRESS) &&
       (decide (expectedMicroUsdt cfg ≤ jt.amount)) &&
       jt.forward_ton_amount.isSome &&
       (match jt.forward_payload with
        | some payload => strContains payload ref || payload == ref
        | none => false)
     | none => false
   | none => false)

/-- Token-rail check of one transaction (telegramBot.js lines 588–625):
some outbound message passes the jetton check. -/
def txJettonMatch (cfg : Config) (ref : String) (tx : Transaction) : Bool :=
  tx.out_msgs.any (outMsgJetton cfg ref)

/-- Whether one pending payment matches the fetched batch on either rail:
native rail over all transactions first, then (only if that failed) the
token rail over all transactions (telegramBot.js lines 546–632). -/
def paymentMatches (cfg : Config) (txs : List Transaction) (p : PendingPayment) : Bool :=
  txs.any (txNativeMatch p.reference) || txs.any (txJettonMatch cfg p.reference)

/-- The dual-rail matcher (telegramBot.js lines 543–633): scan the user's
pending payments in reverse storage order (most-recent-first, line 545) and
return the first one that matches the batch on either rail. -/
def findMatch (cfg : Config) (payments : List PendingPayment) (txs : List Transaction) :
    Option PendingPayment :=
  payments.reverse.find? (paymentMatches cfg txs)

/-! ### Map / Set state

`this.pendingPayments` is a JS `Map`, `this.checkingPayments`,
`this.processedCallbacks` and `this.processedMessages` are JS `Set`s.
They are modelled with association lists / lists of strings. -/

/-- JS `Map.get`. -/
def mapLookup {α : Type} : List (String × α) → String → Option α
  | [], _ => none
  | (k, v) :: rest, key => if k == key then some v else mapLookup rest key

/-- JS `Map.set`: replace the binding when the key is present, append
otherwise. -/
def mapSet {α : Type} : List (String × α) → String → α → List (String × α)
  | [], key, v => [(key, v)]
  | (k, w) :: rest, key, v =>
    if k == key then (k, v) :: rest else (k, w) :: mapSet rest key v

/-- JS `Map.delete`: drop the binding for the key. -/
def mapDelete {α : Type} (m : List (String × α)) (key : String) : List (String × α) :=
  m.filter (fun kv => !(kv.fst == key))

/-- JS `Set.add`. -/
def setAdd (s : List String) (k : String) : List String :=
  if s.contains k then s else k :: s

/-- JS `Set.delete`. -/
def setDelete (s : List String) (k : String) : List String :=
  s.filter (fun x => !(x == k))

/-- The mutable state of `TelegramBotHandler` read and written by the
payment-reconciliation claims: the pending-payment ledger
(`this.pendingPayments`) and the per-user in-flight guard set
(`this.checkingPayments`). -/
structure BotState where
  pendingPayments : List (String × List PendingPayment)
  checkingPayments : List String
deriving DecidableEq

/-! ### Pending payment ledger (handleSubscribe) -/

/-- JS `Array.prototype.slice(-n)`: the last `n` elements of a list (the
whole list when it is shorter than `n`). -/
def sliceLast {α : Type} (n : Nat) (l : List α) : List α :=
  l.drop (l.length - n)

/-- The ledger `record` operation of `handleSubscribe` (telegramBot.js lines
310–326): read the user's existing array (or `[]`), push the new payment at
the end, retain only the 3 most recent via `slice(-3)`, and store the
result back. -/
def recordPayment (ledger : List (String × List PendingPayment)) (userId : String)
    (p : PendingPayment) : List (String × List PendingPayment) :=
  let existingPayments := (mapLookup ledger userId).getD []
  let recentPayments := sliceLast 3 (existingPayments ++ [p])
  mapSet ledger userId recentPayments

/-- A sequence of `record` calls for one user, oldest first. -/
def recordAll (ledger : List (String × List PendingPayment)) (userId : String)
    (ps : List PendingPayment) : List (String × List PendingPayment) :=
  ps.foldl (fun l p => recordPayment l userId p) ledger

/-- The ledger read `this.pendingPayments.get(userId) || []`
(telegramBot.js line 311). -/
def listPending (ledger : List (String × List PendingPayment)) (userId : String) :
    List PendingPayment :=
  (mapLookup ledger userId).getD []

/-! ### Reconciliation loop (handleCheckPayment) -/

/-- The outcome of one ledger fetch (the `axios.get` of telegramBot.js line
527): either a batch of transactions or a transport/API error. -/
inductive FetchRes where
  | ok (txs : List Transaction)
  | apiError
deriving DecidableEq

/-- The terminal result of the bounded-retry polling loop, together with the
number of ledger fetches performed. -/
inductive LoopRes where
  | found (p : PendingPayment) (fetches : Nat)
  | exhausted (fetches : Nat)
  | transportError (fetches : Nat)
deriving DecidableEq

/-- Add one performed fetch to a loop result. -/
def bumpFetches : LoopRes → LoopRes
  | .found p n => .found p (n + 1)
  | .exhausted n => .exhausted (n + 1)
  | .transportError n => .transportError (n + 1)

/-- The retry loop of `handleCheckPayment` (telegramBot.js lines 522–659),
driven by the sequence of ledger-fetch outcomes (one entry per attempt; the
loop performs `maxAttempts` iterations, so callers supply a list of that
length). A successful fetch runs the dual-rail matcher and stops on a
match; a no-match non-final attempt retries after a delay; a no-match final
attempt falls through to the not-found branch; an API error retries unless
it happened on the final attempt, which returns the transport-error outcome
(line 655). -/
def checkLoop (cfg : Config) (payments : List PendingPayment) : List FetchRes → LoopRes
  | [] => .exhausted 0
  | .ok txs :: rest =>
    match findMatch cfg payments txs with
    | some p => .found p 1
    | none => bumpFetches (checkLoop cfg payments rest)
  | .apiError :: rest =>
    if rest.isEmpty then .transportError 1
    else bumpFetches (checkLoop cfg payments rest)

/-- The distinct terminal outcomes of a payment check, one per user-facing
message of `handleCheckPayment`. -/
inductive Outcome where
  | ALREADY_CHECKING
  | NO_PENDING_PAYMENT
  | CONFIRMED
  | EXHAUSTED
  | TRANSPORT_ERROR
deriving DecidableEq

/-- What one invocation of `handleCheckPayment` did: its terminal outcome,
the number of ledger fetches, the `database.createSubscription` calls (user,
reference, days), the number of `pendingPayments.delete` calls, and the
resulting bot state. -/
structure CheckResult where
  outcome : Outcome
  fetchCount : Nat
  subscriptionsCreated : List (String × String × Nat)
  ledgerClears : Nat
  state : BotState
deriving DecidableEq

/-- `handleCheckPayment` (telegramBot.js lines 476–703) on the
send-never-rejects assumption: every awaited `bot.sendMessage` is treated
as resolving. The guard set is consulted first (lines 478–482): when
`checking_<userId>` is present the invocation stops with the
already-checking message, touching nothing. Otherwise the key is added
(line 485), the pending entry is required (lines 491–506), the retry loop
runs, and on a match exactly one subscription is created with the matched
reference and the configured duration (line 664) and the user's whole
pending entry is deleted (line 667). On these paths the checking key is
removed before returning (lines 492, 503, and the `finally` of line 690 —
which the early transport-error `return` of line 656 also passes through).
The refinement `handleCheckPaymentS` below drops the send-never-rejects
assumption and additionally models the exception paths. -/
def handleCheckPayment (cfg : Config) (st : BotState) (userId : String)
    (fetches : List FetchRes) : CheckResult :=
  let checkKey := "checking_" ++ userId
  if st.checkingPayments.contains checkKey then
    ⟨.ALREADY_CHECKING, 0, [], 0, st⟩
  else
    let st1 : BotState := { st with checkingPayments := setAdd st.checkingPayments checkKey }
    match mapLookup st1.pendingPayments userId with
    | none =>
      ⟨.NO_PENDING_PAYMENT, 0, [], 0,
        { st1 with checkingPayments := setDelete st1.checkingPayments checkKey }⟩
    | some paymentsToCheck =>
      if paymentsToCheck.isEmpty then
        ⟨.NO_PENDING_PAYMENT, 0, [], 0,
          { st1 with checkingPayments := setDelete st1.checkingPayments checkKey }⟩
      else
        match checkLoop cfg paymentsToCheck fetches with
        | .found p n =>
          ⟨.CONFIRMED, n, [(userId, p.reference, cfg.SUBSCRIPTION_DAYS)], 1,
            { pendingPayments := mapDelete st1.pendingPayments userId,
              checkingPayments := setDelete st1.checkingPayments checkKey }⟩
        | .exhausted n =>
          ⟨.EXHAUSTED, n, [], 0,
            { st1 with checkingPayments := setDelete st1.checkingPayments checkKey }⟩
        | .transportError n =>
          ⟨.TRANSPORT_ERROR, n, [], 0,
            { st1 with checkingPayments := setDelete st1.checkingPayments checkKey }⟩

/-- The entry guard of `handleCheckPayment` in isolation (telegramBot.js
lines 478–485): report whether the invocation may proceed, and mark the
user as in flight when it may. -/
def guardStep (st : BotState) (userId : String) : Bool × BotState :=
  let checkKey := "checking_" ++ userId
  if st.checkingPayments.contains checkKey then (false, st)
  else (true, { st with checkingPayments := setAdd st.checkingPayments checkKey })

/-- Result of the send-failure refinement of `handleCheckPayment`:
`outcome` is `none` when the invocation ends through the outer catch of
line 695 (generic-error message, or an unhandled rejection when that
message's own send rejects), and `checkingPayments` is the final guard
set. Pending-entry and subscription effects are left to the plain model —
an exception can interrupt them midway — since only the guard set is at
issue here; `handleCheckPaymentS_agrees` ties the two models together on
exception-free runs. -/
structure CheckResultS where
  outcome : Option Outcome
  checkingPayments : List String
deriving DecidableEq

/-- `handleCheckPayment` (telegramBot.js lines 476–703) with its exception
paths. Three oracles describe the awaited steps that can reject:
`checkingSendOk` — whether the pre-poll "checking payment" send of line
511 resolves; `innerRaises` — whether anything awaited inside the inner
`try` of lines 516–686 (the polling loop, `createSubscription`, the result
sends, `sendImmediateSentence`) rejects unexpectedly; `errorSendOk` —
whether the error-notification send of line 697 in the outer catch
resolves. Control flow follows the source: on the no-pending paths the key
is deleted (lines 492, 503) before the message send, so those sends'
failures cannot keep it; a line-511 rejection skips the inner `try`
entirely and reaches the outer catch, which awaits the line-697 send
*before* deleting the key at line 700 — if that send also rejects, the
rejection is unhandled and the key is never deleted; any rejection inside
the inner `try` passes through the `finally` of line 690, which deletes
the key whatever happens afterwards. -/
def handleCheckPaymentS (cfg : Config) (st : BotState) (userId : String)
    (fetches : List FetchRes) (checkingSendOk : Bool) (innerRaises : Bool)
    (errorSendOk : Bool) : CheckResultS :=
  let checkKey := "checking_" ++ userId
  if st.checkingPayments.contains checkKey then
    ⟨some .ALREADY_CHECKING, st.checkingPayments⟩
  else
    let cp1 := setAdd st.checkingPayments checkKey
    match mapLookup st.pendingPayments userId with
    | none => ⟨some .NO_PENDING_PAYMENT, setDelete cp1 checkKey⟩
    | some paymentsToCheck =>
      if paymentsToCheck.isEmpty then
        ⟨some .NO_PENDING_PAYMENT, setDelete cp1 checkKey⟩
      else if checkingSendOk = false then
        if errorSendOk then ⟨none, setDelete cp1 checkKey⟩
        else ⟨none, cp1⟩
      else if innerRaises then
        ⟨none, setDelete cp1 checkKey⟩
      else
        match checkLoop cfg paymentsToCheck fetches with
        | .found _ _ => ⟨some .CONFIRMED, setDelete cp1 checkKey⟩
        | .exhausted _ => ⟨some .EXHAUSTED, setDelete cp1 checkKey⟩
        | .transportError _ => ⟨some .TRANSPORT_ERROR, setDelete cp1 checkKey⟩

/-! ### Event deduplication (setupEventHandlers) -/

/-- Callback dedup key (telegramBot.js line 64):
`${callbackQuery.id}_${callbackQuery.data}`. -/
def callbackKey (id data : String) : String :=
  id ++ "_" ++ data

/-- Inbound-message dedup key (telegramBot.js line 107):
`${msg.message_id}_${msg.from.id}`. -/
def messageKey (messageId fromId : String) : String :=
  messageId ++ "_" ++ fromId

/-- The `callback_query` listener (telegramBot.js lines 63–81): a key
already in `processedCallbacks` is ignored; otherwise it is added and the
handler runs; when the handler rejects (`handlerFails`), the `.catch`
removes the key again so a retry is processed. The returned `Bool` is
whether the handler was invoked. -/
def processCallback (processed : List String) (id data : String) (handlerFails : Bool) :
    Bool × List String :=
  let key := callbackKey id data
  if processed.contains key then (false, processed)
  else
    let processed1 := setAdd processed key
    if handlerFails then (true, setDelete processed1 key)
    else (true, processed1)

/-- The text-message listener (telegramBot.js lines 106–117): a key already
in `processedMessages` is ignored; otherwise it is added and the handler
runs. There is no rollback: `handlerFails` has no effect on the set. -/
def processMessage (processed : List String) (messageId fromId : String)
    (handlerFails : Bool) : Bool × List String :=
  let key := messageKey messageId fromId
  if processed.contains key then (false, processed)
  else (true, setAdd processed key)

/-! ### Daily fan-out (scheduler.js) -/

/-- One entry of a sentence's `word_breakdown` array, classified the way
`createDailyMessage` classifies it (scheduler.js lines 105–111): an object
with truthy `word` and `meaning` (whose `pinyin` may be absent/falsy), a
plain string, or anything else (rendered as nothing). -/
inductive WordEntry where
  | obj (word meaning : String) (pinyin : Option String)
  | str (s : String)
  | skipped
deriving DecidableEq

/-- A generated content unit (`deepseekService.generateEnglishSentence`
result) as consumed by the scheduler. -/
structure Sentence where
  english_text : String
  japanese_translation : String
  word_breakdown : List WordEntry
deriving DecidableEq

/-- An eligible user row returned by `getActiveUsers` (scheduler.js lines
73–91), restricted to the fields the fan-out loop reads. -/
structure DUser where
  telegram_user_id : String
  difficulty_level : Nat
deriving DecidableEq

/-- Characters kept by the scheduler's `sanitizePronunciation` regex
(letters, whitespace, hyphen, and the apostrophe, codepoint 39;
scheduler.js line 97). -/
def isAllowedPronChar (c : Char) : Bool :=
  ('a' ≤ c && c ≤ 'z') || ('A' ≤ c && c ≤ 'Z') || c.isWhitespace || c == '-' ||
    c.toNat == 39

/-- `sanitizePronunciation` (scheduler.js lines 94–98): drop every character
outside the allowed class, then trim surrounding whitespace. -/
def sanitizePronunciation (t : String) : String :=
  ((t.data.filter isAllowedPronChar).asString).trim

/-- One line of the rendered word breakdown (scheduler.js lines 105–111). -/
def wordLine : WordEntry → String
  | .obj word meaning pinyin =>
    word ++ " - " ++ meaning ++ " - " ++ sanitizePronunciation (pinyin.getD "") ++ "\n"
  | .str s => s ++ "\n"
  | .skipped => ""

/-- The rendered word-breakdown block (scheduler.js lines 102–113): empty
for an empty array, otherwise a header followed by one line per entry. -/
def wordBreakdownText (ws : List WordEntry) : String :=
  if ws.isEmpty then ""
  else "\n\n📚 単語の解説:\n" ++ String.join (ws.map wordLine)

/-- `createDailyMessage` (scheduler.js lines 100–126): the daily-lesson
template instantiated with one sentence. -/
def createDailyMessage (s : Sentence) : String :=
  "🇬🇧 今日の英語レッスン\n\n📝 英語の文章:\n" ++ s.english_text ++
  "\n\n🔤 日本語訳:\n" ++ s.japanese_translation ++
  "\n\n英語の文章をタイプしてみましょう！" ++ wordBreakdownText s.word_breakdown ++
  "\n\n英語の文章を練習しましょう！"

/-- The value of the longest leading digit run of `l`, or `none` when `l`
does not start with a digit. -/
def digitRunVal (l : List Char) : Option Nat :=
  match l with
  | c :: _ => if c.isDigit then some (go 0 l) else none
  | [] => none
where
  go (acc : Nat) : List Char → Nat
    | [] => acc
    | c :: rest => if c.isDigit then go (acc * 10 + (c.toNat - '0'.toNat)) rest else acc

/-- JS `parseInt(s, 10)` as used on `user.telegram_user_id`
(scheduler.js line 53): skip leading whitespace, read an optional sign and
the longest digit run; `none` models `NaN` (no digits found). -/
def jsParseInt (s : String) : Option Int :=
  let t := s.data.dropWhile Char.isWhitespace
  match t with
  | '-' :: rest => (digitRunVal rest).map (fun n => -(n : Int))
  | '+' :: rest => (digitRunVal rest).map (fun n => (n : Int))
  | _ => (digitRunVal t).map (fun n => (n : Int))

/-- The per-tier generation cache `difficultySentences` built by
`sendDailyMessages` (scheduler.js lines 33–41): levels 1..5 hold the
generation result when `generateEnglishSentence` succeeded for that level;
a failed generation (the catch of line 38) leaves the level absent, as does
any level outside 1..5. `gen` is the oracle of per-level generation
outcomes for this run. -/
def buildCache (gen : Nat → Option Sentence) (level : Nat) : Option Sentence :=
  if 1 ≤ level && level ≤ 5 then gen level else none

/-- The per-user fan-out loop of `sendDailyMessages` (scheduler.js lines
44–65), returning the sequence of `messageQueue.addMessage` calls as
(chatId, rendered message) pairs. `i` numbers the users so that `saveOk i`
can model whether the i-th user's `saveSentence` insert succeeded — a throw
there is caught by the per-user handler (line 62) and only skips that user.
A user whose tier has no cached sentence is skipped (line 60), as is a user
whose id does not parse to a number (lines 54–57). Nothing follows the
`addMessage` call inside the per-user `try`, so an enqueue failure is also
caught without altering the recorded trace or later users. -/
def fanoutUsers (cache : Nat → Option Sentence) (saveOk : Nat → Bool) :
    Nat → List DUser → List (Int × String)
  | _, [] => []
  | i, u :: rest =>
    let tail := fanoutUsers cache saveOk (i + 1) rest
    match cache u.difficulty_level with
    | none => tail
    | some sentenceData =>
      if saveOk i then
        match jsParseInt u.telegram_user_id with
        | none => tail
        | some chatId => (chatId, createDailyMessage sentenceData) :: tail
      else tail

/-- `sendDailyMessages` (scheduler.js lines 25–71): build the per-tier cache
then fan out to every eligible user, collecting the enqueue trace. The
whole body is inside a `try`; every per-unit failure is caught, so the run
is a total function of its oracles. -/
def sendDailyMessages (gen : Nat → Option Sentence) (saveOk : Nat → Bool)
    (users : List DUser) : List (Int × String) :=
  fanoutUsers (buildCache gen) saveOk 0 users

/-- The number of enqueues addressed to chat `c` in a fan-out trace. -/
def countChat (res : List (Int × String)) (c : Int) : Nat :=
  (res.filter (fun e => e.fst == c)).length

/-- The token-rail matching condition on one outbound message exactly as the
claim words it — jetton transfer to the configured contract, amount at least
the expected token amount, forward payload equal to or containing the
reference, and no additional conditions. Stated from the claim's words, to
be compared with the source's `outMsgJetton`. -/
def claimTokenCond (cfg : Config) (ref : String) (m : OutMsg) : Bool :=
  match m.decoded_body with
  | some body =>
    match body.jetton_transfer with
    | some jt =>
      (jt.jetton_master_address == cfg.USDT_CONTRACT_ADDRESS) &&
      (decide (expectedMicroUsdt cfg ≤ jt.amount)) &&
      (match jt.forward_payload with
       | some payload => (payload == ref) || strContains payload ref
       | none => false)
    | none => false
  | none => false

/-! ### Concrete test vectors used by witnesses and counterexamples -/

/-- A transaction whose inbound message carries the given text memo and that
has no outbound messages. -/
def txWithMemo (memo : String) : Transaction :=
  ⟨some ⟨some ⟨some memo, none⟩⟩, []⟩

/-- A concrete configuration: $1 in USDT, six decimals, 30-day subscription,
3 polling attempts. -/
def cfgW : Config :=
  ⟨"USDT-MASTER", 1, 1000000, 30, 3⟩

/-- Reference of the older concrete payment
(format `english-bot-<userId>-<timestamp>`). -/
def refW : String := "english-bot-7-100"

/-- The older concrete pending payment. -/
def pW : PendingPayment := ⟨refW, 400000000, 1000000, 100⟩

/-- Reference of the newer concrete payment. -/
def refW2 : String := "english-bot-7-200"

/-- The newer concrete pending payment. -/
def pW2 : PendingPayment := ⟨refW2, 400000000, 1000000, 200⟩

/-- Third concrete pending payment. -/
def pW3 : PendingPayment := ⟨"english-bot-7-300", 400000000, 1000000, 300⟩

/-- Fourth concrete pending payment. -/
def pW4 : PendingPayment := ⟨"english-bot-7-400", 400000000, 1000000, 400⟩

/-- Outbound message meeting every condition the token-rail claim lists
(right contract, sufficient amount, payload equal to the reference) but
whose `forward_ton_amount` is absent. -/
def outMsgNoFwdTon : OutMsg :=
  ⟨true, true, some ⟨none, some ⟨"USDT-MASTER", 1000000, none, some refW⟩⟩⟩

/-- Outbound message meeting every condition the token-rail claim lists but
whose `source` field is falsy. -/
def outMsgNoSource : OutMsg :=
  ⟨false, true, some ⟨none, some ⟨"USDT-MASTER", 1000000, some 1, some refW⟩⟩⟩

/-- Transaction carrying the two near-miss jetton messages above. -/
def txCexC2 : Transaction := ⟨none, [outMsgNoFwdTon, outMsgNoSource]⟩

/-- Concrete tier-1 sentence. -/
def sA : Sentence := ⟨"Hello.", "こんにちは。", []⟩

/-- Concrete tier-3 sentence. -/
def sB : Sentence := ⟨"The weather is very nice today.", "今日はとても良い天気です。", []⟩

/-- Generation oracle of the fan-out scenario: tiers 1 and 3 succeed, the
others fail. -/
def genW : Nat → Option Sentence := fun level =>
  if level == 1 then some sA else if level == 3 then some sB else none

/-- Eligible users at tiers 1, 1 and 3. -/
def usersW : List DUser := [⟨"1", 1⟩, ⟨"2", 1⟩, ⟨"3", 3⟩]

/-- Generation oracle where only tier 1 succeeds. -/
def genCexC9 : Nat → Option Sentence := fun level =>
  if level == 1 then some sA else none

/-! ### Shared lemmas about the state primitives -/

theorem contains_setDelete (s : List String) (k : String) :
    (setDelete s k).contains k = false := by
  simp [setDelete, List.contains, List.elem_eq_mem]

theorem contains_setAdd_self (s : List String) (k : String) :
    (setAdd s k).contains k = true := by
  simp only [setAdd, List.contains, List.elem_eq_mem]
  by_cases h : k ∈ s <;> simp [h]

theorem not_mem_setDelete (s : List String) (k : String) : k ∉ setDelete s k := by
  simp [setDelete, List.mem_filter]

theorem mem_setAdd_self (s : List String) (k : String) : k ∈ setAdd s k := by
  unfold setAdd
  by_cases h : k ∈ s
  · simp [List.contains, List.elem_eq_mem, h]
  · simp [List.contains, List.elem_eq_mem, h]

theorem mapLookup_mapDelete {α : Type} (m : List (String × α)) (k : String) :
    mapLookup (mapDelete m k) k = none := by
  induction m with
  | nil => rfl
  | cons kv rest ih =>
    simp only [mapDelete, List.filter_cons]
    by_cases hk : kv.fst = k
    · simpa [hk, mapDelete] using ih
    · simpa [mapLookup, hk, mapDelete] using ih

theorem mapLookup_mapSet_self {α : Type} (m : List (String × α)) (k : String) (v : α) :
    mapLookup (mapSet m k v) k = some v := by
  induction m with
  | nil => simp [mapSet, mapLookup]
  | cons kv rest ih =>
    by_cases h : kv.fst = k
    · simp [mapSet, mapLookup, h]
    · cases kv with
      | mk k1 v1 =>
        simp only at h
        simp [mapSet, mapLookup, h, ih]

theorem strContains_self (s : String) : strContains s s = true :=
  decide_eq_true ⟨[], [], by simp⟩

theorem strContains_append (pre r suf : String) :
    strContains (pre ++ r ++ suf) r = true :=
  decide_eq_true ⟨pre.data, suf.data, by simp⟩

theorem sliceLast_of_le {α : Type} (n : Nat) (l : List α) (h : l.length ≤ n) :
    sliceLast n l = l := by
  simp [sliceLast, Nat.sub_eq_zero_of_le h]

theorem length_sliceLast {α : Type} (n : Nat) (l : List α) :
    (sliceLast n l).length = min n l.length := by
  simp [sliceLast]
  omega

theorem sliceLast_append_sliceLast {α : Type} (n : Nat) (l ts : List α) :
    sliceLast n (sliceLast n l ++ ts) = sliceLast n (l ++ ts) := by
  unfold sliceLast
  rw [← List.drop_append_of_le_length (by omega : l.length - n ≤ l.length)]
  rw [List.drop_drop]
  congr 1
  simp [List.length_drop, List.length_append]
  omega

theorem foldl_sliceLast {α : Type} (ps : List α) :
    ∀ acc : List α, acc.length ≤ 3 →
      ps.foldl (fun l p => sliceLast 3 (l ++ [p])) acc = sliceLast 3 (acc ++ ps) := by
  induction ps with
  | nil => intro acc h; simp [sliceLast_of_le 3 acc h]
  | cons p rest ih =>
    intro acc h
    simp only [List.foldl_cons]
    rw [ih (sliceLast 3 (acc ++ [p])) (by rw [length_sliceLast]; omega)]
    rw [sliceLast_append_sliceLast]
    simp

theorem sliceLast_eq_rtake {α : Type} (n : Nat) (l : List α) :
    sliceLast n l = (l.reverse.take n).reverse := by
  rw [show (l.reverse.take n).reverse = l.rtake n from
        (List.rtake_eq_reverse_take_reverse l n).symm]
  rfl

/-- All-error fetch sequences drive the loop to the transport-error outcome
after exactly one fetch per attempt. -/
theorem checkLoop_allErrors (cfg : Config) (pl : List PendingPayment) :
    ∀ fs : List FetchRes, (∀ f ∈ fs, f = FetchRes.apiError) → fs ≠ [] →
      checkLoop cfg pl fs = LoopRes.transportError fs.length := by
  intro fs
  induction fs with
  | nil => intro _ hne; exact absurd rfl hne
  | cons f rest ih =>
    intro hall _
    have hf : f = FetchRes.apiError := hall f (by simp)
    subst hf
    cases hrest : rest with
    | nil => simp [checkLoop]
    | cons g more =>
      have : checkLoop cfg pl rest = LoopRes.transportError rest.length := by
        refine ih (fun x hx => hall x (by simp [hx])) (by simp [hrest])
      rw [hrest] at this
      simp [checkLoop, hrest, this, bumpFetches]

/-! ### Claim theorems -/

/-- C7: when a reconciliation is already in flight for a user (the
`checking_<userId>` key is in `checkingPayments`), a second trigger for the
same user returns the distinct already-checking outcome with zero ledger
fetches, zero subscription creations, zero ledger clears, and an unchanged
state; and of two back-to-back guard passes for one user, exactly the first
proceeds. -/
theorem c7_concurrency_guard (cfg : Config) (st : BotState) (userId : String)
    (fetches : List FetchRes)
    (h : st.checkingPayments.contains ("checking_" ++ userId) = true) :
    handleCheckPayment cfg st userId fetches =
      ⟨Outcome.ALREADY_CHECKING, 0, [], 0, st⟩ ∧
    ∀ st0 : BotState, st0.checkingPayments.contains ("checking_" ++ userId) = false →
      (guardStep st0 userId).fst = true ∧
      (guardStep (guardStep st0 userId).snd userId).fst = false := by
  have hmem : "checking_" ++ userId ∈ st.checkingPayments := by
    simpa [List.contains, List.elem_eq_mem] using h
  constructor
  · simp [handleCheckPayment, hmem]
  · intro st0 h0
    have h0' : "checking_" ++ userId ∉ st0.checkingPayments := by
      simpa [List.contains, List.elem_eq_mem] using h0
    constructor
    · simp [guardStep, h0']
    · simp [guardStep, h0', mem_setAdd_self]

/-- C7 witness: a user marked as in flight gets the already-checking result
with no side effects, and of two consecutive guard attempts from a fresh
state exactly the first proceeds. -/
theorem c7_concurrency_guard_witness :
    handleCheckPayment cfgW ⟨[("7", [pW])], ["checking_7"]⟩ "7" [] =
      ⟨Outcome.ALREADY_CHECKING, 0, [], 0, ⟨[("7", [pW])], ["checking_7"]⟩⟩ ∧
    (guardStep ⟨[], []⟩ "7").fst = true ∧
    (guardStep (guardStep ⟨[], []⟩ "7").snd "7").fst = false := by
  have h := c7_concurrency_guard cfgW ⟨[("7", [pW])], ["checking_7"]⟩ "7" [] (by decide)
  exact ⟨h.1, (h.2 ⟨[], []⟩ (by decide)).1, (h.2 ⟨[], []⟩ (by decide)).2⟩

/-- On exception-free runs — the pre-poll send resolves and nothing in the
inner block rejects — the send-failure refinement agrees with the plain
model on both the outcome and the final guard set. -/
theorem handleCheckPaymentS_agrees (cfg : Config) (st : BotState)
    (userId : String) (fetches : List FetchRes) (errorSendOk : Bool) :
    (handleCheckPaymentS cfg st userId fetches true false errorSendOk).outcome =
      some (handleCheckPayment cfg st userId fetches).outcome ∧
    (handleCheckPaymentS cfg st userId fetches true false errorSendOk).checkingPayments =
      (handleCheckPayment cfg st userId fetches).state.checkingPayments := by
  unfold handleCheckPayment handleCheckPaymentS
  by_cases hg : "checking_" ++ userId ∈ st.checkingPayments
  · simp [hg]
  · cases hm : mapLookup st.pendingPayments userId with
    | none => simp [hg, hm]
    | some pl =>
      by_cases hpl : pl.isEmpty
      · simp [hg, hm, hpl]
      · cases hloop : checkLoop cfg pl fetches with
        | found p n => simp [hg, hm, hpl, hloop]
        | exhausted n => simp [hg, hm, hpl, hloop]
        | transportError n => simp [hg, hm, hpl, hloop]

/-- C10 counterexample: when the pre-poll "checking payment" send of line
511 rejects and the error-notification send of line 697 also rejects, the
invocation terminates (as an unhandled rejection) with `checking_7` still
in the guard set, and every later payment check for that user then returns
the already-checking outcome — the permanent lockout the claim rules out. -/
theorem c10_counterexample :
    (handleCheckPaymentS cfgW ⟨[("7", [pW])], []⟩ "7"
      [FetchRes.apiError] false false false).checkingPayments.contains
        "checking_7" = true ∧
    (handleCheckPaymentS cfgW
      ⟨[("7", [pW])],
        (handleCheckPaymentS cfgW ⟨[("7", [pW])], []⟩ "7"
          [FetchRes.apiError] false false false).checkingPayments⟩
      "7" [FetchRes.ok [txWithMemo refW]] true false true).outcome =
        some Outcome.ALREADY_CHECKING := by
  decide

/-- C10 (amended): an invocation that passes the entry guard ends with the
user's checking key cleared on every path where the pre-poll send resolves
or the outer catch's error notification resolves — no pending payment,
confirmed, not found, transport error, and any unexpected rejection inside
the inner polling/confirmation block (the `finally` of line 690 clears the
key) — but when the pre-poll send of line 511 rejects and the
error-notification send of line 697 also rejects while pending payments
exist, the key survives the invocation and the user is locked out of
future checks. -/
theorem c10_flag_cleared_unless_double_send_failure (cfg : Config)
    (st : BotState) (userId : String) (fetches : List FetchRes)
    (checkingSendOk innerRaises errorSendOk : Bool)
    (hguard : st.checkingPayments.contains ("checking_" ++ userId) = false) :
    ((checkingSendOk = true ∨ errorSendOk = true) →
      (handleCheckPaymentS cfg st userId fetches checkingSendOk innerRaises
        errorSendOk).checkingPayments.contains ("checking_" ++ userId) = false) ∧
    (∀ pl, mapLookup st.pendingPayments userId = some pl → pl.isEmpty = false →
      (handleCheckPaymentS cfg st userId fetches false innerRaises
        false).checkingPayments.contains ("checking_" ++ userId) = true) := by
  have h' : "checking_" ++ userId ∉ st.checkingPayments := by
    simpa [List.contains, List.elem_eq_mem] using hguard
  constructor
  · intro hsend
    unfold handleCheckPaymentS
    cases hm : mapLookup st.pendingPayments userId with
    | none => simp [h', hm, List.contains, List.elem_eq_mem, not_mem_setDelete]
    | some pl =>
      by_cases hpl : pl.isEmpty
      · simp [h', hm, hpl, List.contains, List.elem_eq_mem, not_mem_setDelete]
      · cases hcs : checkingSendOk with
        | false =>
          have hes : errorSendOk = true := by
            cases hsend with
            | inl h => rw [hcs] at h; exact absurd h (by simp)
            | inr h => exact h
          simp [h', hm, hpl, hcs, hes, List.contains, List.elem_eq_mem,
            not_mem_setDelete]
        | true =>
          cases hir : innerRaises with
          | true =>
            simp [h', hm, hpl, hcs, hir, List.contains, List.elem_eq_mem,
              not_mem_setDelete]
          | false =>
            cases hloop : checkLoop cfg pl fetches with
            | found p n =>
              simp [h', hm, hpl, hcs, hir, hloop, List.contains,
                List.elem_eq_mem, not_mem_setDelete]
            | exhausted n =>
              simp [h', hm, hpl, hcs, hir, hloop, List.contains,
                List.elem_eq_mem, not_mem_setDelete]
            | transportError n =>
              simp [h', hm, hpl, hcs, hir, hloop, List.contains,
                List.elem_eq_mem, not_mem_setDelete]
  · intro pl hm hpl
    unfold handleCheckPaymentS
    simp [h', hm, hpl, List.contains, List.elem_eq_mem, mem_setAdd_self]

/-- C10 witness: a confirmed exception-free run clears the key; a run whose
inner block rejects unexpectedly still clears it through the `finally`; and
the concrete double-send-failure run keeps it. -/
theorem c10_flag_cleared_unless_double_send_failure_witness :
    (handleCheckPaymentS cfgW ⟨[("7", [pW])], []⟩ "7"
      [FetchRes.ok [txWithMemo refW]] true false true).checkingPayments.contains
        "checking_7" = false ∧
    (handleCheckPaymentS cfgW ⟨[("7", [pW])], []⟩ "7"
      [FetchRes.ok [txWithMemo refW]] true true true).checkingPayments.contains
        "checking_7" = false ∧
    (handleCheckPaymentS cfgW ⟨[("7", [pW])], []⟩ "7"
      [FetchRes.ok [txWithMemo refW]] false false false).checkingPayments.contains
        "checking_7" = true :=
  ⟨(c10_flag_cleared_unless_double_send_failure cfgW ⟨[("7", [pW])], []⟩ "7"
      [FetchRes.ok [txWithMemo refW]] true false true (by decide)).1 (Or.inl rfl),
   (c10_flag_cleared_unless_double_send_failure cfgW ⟨[("7", [pW])], []⟩ "7"
      [FetchRes.ok [txWithMemo refW]] true true true (by decide)).1 (Or.inl rfl),
   (c10_flag_cleared_unless_double_send_failure cfgW ⟨[("7", [pW])], []⟩ "7"
      [FetchRes.ok [txWithMemo refW]] false false false (by decide)).2 [pW]
      (by decide) (by decide)⟩

/-- C3: when the user passes the guard and has pending payments and every
one of the `maxAttempts` ledger fetches errors, the handler performs
exactly `maxAttempts` fetches and ends with the transport-error outcome,
which is a different outcome from the exhausted (not-found) one. -/
theorem c3_transport_error_exactly_max_attempts (cfg : Config) (st : BotState)
    (userId : String) (fetches : List FetchRes) (pl : List PendingPayment)
    (hguard : st.checkingPayments.contains ("checking_" ++ userId) = false)
    (hpl : mapLookup st.pendingPayments userId = some pl)
    (hne : pl.isEmpty = false)
    (hlen : fetches.length = cfg.MAX_ATTEMPTS)
    (hpos : 1 ≤ cfg.MAX_ATTEMPTS)
    (herr : ∀ f ∈ fetches, f = FetchRes.apiError) :
    (handleCheckPayment cfg st userId fetches).outcome = Outcome.TRANSPORT_ERROR ∧
    (handleCheckPayment cfg st userId fetches).fetchCount = cfg.MAX_ATTEMPTS ∧
    Outcome.TRANSPORT_ERROR ≠ Outcome.EXHAUSTED := by
  have hfsne : fetches ≠ [] := by
    intro hnil
    rw [hnil] at hlen
    simp at hlen
    omega
  have hloop := checkLoop_allErrors cfg pl fetches herr hfsne
  have hg' : "checking_" ++ userId ∉ st.checkingPayments := by
    simpa [List.contains, List.elem_eq_mem] using hguard
  unfold handleCheckPayment
  refine ⟨?_, ?_, by simp⟩ <;> simp [hg', hpl, hne, hloop, hlen]

/-- C3 witness: with three all-error fetches, the concrete run ends in the
transport-error outcome after exactly 3 fetches. -/
theorem c3_transport_error_exactly_max_attempts_witness :
    (handleCheckPayment cfgW ⟨[("7", [pW])], []⟩ "7"
      [FetchRes.apiError, FetchRes.apiError, FetchRes.apiError]).outcome =
        Outcome.TRANSPORT_ERROR ∧
    (handleCheckPayment cfgW ⟨[("7", [pW])], []⟩ "7"
      [FetchRes.apiError, FetchRes.apiError, FetchRes.apiError]).fetchCount =
        cfgW.MAX_ATTEMPTS ∧
    Outcome.TRANSPORT_ERROR ≠ Outcome.EXHAUSTED :=
  c3_transport_error_exactly_max_attempts cfgW ⟨[("7", [pW])], []⟩ "7"
    [FetchRes.apiError, FetchRes.apiError, FetchRes.apiError] [pW]
    (by decide) (by decide) (by decide) (by decide) (by decide) (by decide)

/-- C1: when the retry loop finds a matching pending payment, the handler
ends confirmed, creates exactly one subscription — for that user, with the
matched payment's reference and the configured duration — performs exactly
one ledger clear, and afterwards the user's pending-payment entry is gone. -/
theorem c1_confirmed_one_subscription_one_clear (cfg : Config) (st : BotState)
    (userId : String) (fetches : List FetchRes) (pl : List PendingPayment)
    (p : PendingPayment) (n : Nat)
    (hguard : st.checkingPayments.contains ("checking_" ++ userId) = false)
    (hpl : mapLookup st.pendingPayments userId = some pl)
    (hne : pl.isEmpty = false)
    (hloop : checkLoop cfg pl fetches = LoopRes.found p n) :
    (handleCheckPayment cfg st userId fetches).outcome = Outcome.CONFIRMED ∧
    (handleCheckPayment cfg st userId fetches).subscriptionsCreated =
      [(userId, p.reference, cfg.SUBSCRIPTION_DAYS)] ∧
    (handleCheckPayment cfg st userId fetches).ledgerClears = 1 ∧
    mapLookup (handleCheckPayment cfg st userId fetches).state.pendingPayments
      userId = none := by
  have hg' : "checking_" ++ userId ∉ st.checkingPayments := by
    simpa [List.contains, List.elem_eq_mem] using hguard
  unfold handleCheckPayment
  refine ⟨?_, ?_, ?_, ?_⟩ <;>
    simp [hg', hpl, hne, hloop, mapLookup_mapDelete]

/-- C1 witness: the spec's scenario — no match on attempts 1 and 2, a match
on the final attempt — ends confirmed with one subscription for the matched
reference and an empty pending entry. -/
theorem c1_confirmed_one_subscription_one_clear_witness :
    (handleCheckPayment cfgW ⟨[("7", [pW])], []⟩ "7"
      [FetchRes.ok [], FetchRes.ok [], FetchRes.ok [txWithMemo refW]]).outcome =
        Outcome.CONFIRMED ∧
    (handleCheckPayment cfgW ⟨[("7", [pW])], []⟩ "7"
      [FetchRes.ok [], FetchRes.ok [], FetchRes.ok [txWithMemo refW]]).subscriptionsCreated =
        [("7", pW.reference, cfgW.SUBSCRIPTION_DAYS)] ∧
    (handleCheckPayment cfgW ⟨[("7", [pW])], []⟩ "7"
      [FetchRes.ok [], FetchRes.ok [], FetchRes.ok [txWithMemo refW]]).ledgerClears = 1 ∧
    mapLookup (handleCheckPayment cfgW ⟨[("7", [pW])], []⟩ "7"
      [FetchRes.ok [], FetchRes.ok [], FetchRes.ok [txWithMemo refW]]).state.pendingPayments
      "7" = none :=
  c1_confirmed_one_subscription_one_clear cfgW ⟨[("7", [pW])], []⟩ "7"
    [FetchRes.ok [], FetchRes.ok [], FetchRes.ok [txWithMemo refW]] [pW] pW 3
    (by decide) (by decide) (by decide) (by decide)

/-- C4 counterexample: an inbound-text-message key whose first handler run
fails is NOT unmarked — the next occurrence of the same key is suppressed,
contrary to the claim that it is processed again. -/
theorem c4_counterexample :
    (processMessage [] "10" "7" true).fst = true ∧
    (processMessage (processMessage [] "10" "7" true).snd "10" "7" true).fst = false := by
  decide

/-- C4 (amended): for both key kinds the first occurrence is processed and
repeats are suppressed; after an unrecoverable handler failure the
callback key is unmarked, so its next occurrence is processed again —
but the message key is never unmarked, so its next occurrence stays
suppressed even after a failure. -/
theorem c4_dedup_rollback_callbacks_only (processed : List String)
    (id data mId sId : String) (fails : Bool)
    (hc : processed.contains (callbackKey id data) = false)
    (hm : processed.contains (messageKey mId sId) = false) :
    (processCallback processed id data fails).fst = true ∧
    (processCallback (processCallback processed id data false).snd id data fails).fst
      = false ∧
    (processCallback (processCallback processed id data true).snd id data fails).fst
      = true ∧
    (processMessage processed mId sId fails).fst = true ∧
    (processMessage (processMessage processed mId sId true).snd mId sId fails).fst
      = false := by
  have hc' : callbackKey id data ∉ processed := by
    simpa [List.contains, List.elem_eq_mem] using hc
  have hm' : messageKey mId sId ∉ processed := by
    simpa [List.contains, List.elem_eq_mem] using hm
  refine ⟨?_, ?_, ?_, ?_, ?_⟩
  · cases fails <;> simp [processCallback, hc']
  · simp [processCallback, hc', mem_setAdd_self]
  · cases fails <;> simp [processCallback, hc', not_mem_setDelete]
  · simp [processMessage, hm']
  · simp [processMessage, hm', mem_setAdd_self]

/-- C4 witness: the amended behaviour at concrete keys starting from an
empty dedup set. -/
theorem c4_dedup_rollback_callbacks_only_witness :
    (processCallback [] "cb1" "subscribe" true).fst = true ∧
    (processCallback (processCallback [] "cb1" "subscribe" false).snd "cb1" "subscribe" true).fst
      = false ∧
    (processCallback (processCallback [] "cb1" "subscribe" true).snd "cb1" "subscribe" true).fst
      = true ∧
    (processMessage [] "10" "7" true).fst = true ∧
    (processMessage (processMessage [] "10" "7" true).snd "10" "7" true).fst = false :=
  c4_dedup_rollback_callbacks_only [] "cb1" "subscribe" "10" "7" true
    (by decide) (by decide)

/-- C5: the native rail matches a transaction whose memo is exactly the
reference, still matches when the memo is the reference surrounded by extra
characters (substring policy), and when no transaction matches on either
rail the matcher returns none. -/
theorem c5_native_rail_memo_policy (cfg : Config) (p : PendingPayment)
    (pre suf : String) (txs : List Transaction)
    (hnone : ∀ tx ∈ txs, txNativeMatch p.reference tx = false ∧
      txJettonMatch cfg p.reference tx = false) :
    findMatch cfg [p] [txWithMemo p.reference] = some p ∧
    findMatch cfg [p] [txWithMemo (pre ++ p.reference ++ suf)] = some p ∧
    findMatch cfg [p] txs = none := by
  refine ⟨?_, ?_, ?_⟩
  · simp [findMatch, paymentMatches, txNativeMatch, txWithMemo, memoMatches]
  · simp [findMatch, paymentMatches, txNativeMatch, txWithMemo, memoMatches,
      strContains_append]
  · have h1 : txs.any (txNativeMatch p.reference) = false := by
      simp only [List.any_eq_false]
      intro x hx
      simp [(hnone x hx).1]
    have h2 : txs.any (txJettonMatch cfg p.reference) = false := by
      simp only [List.any_eq_false]
      intro x hx
      simp [(hnone x hx).2]
    simp [findMatch, paymentMatches, h1, h2]

/-- C5 witness: the exact-memo and padded-memo matches succeed and a batch
whose memos avoid the reference yields none. -/
theorem c5_native_rail_memo_policy_witness :
    findMatch cfgW [pW] [txWithMemo pW.reference] = some pW ∧
    findMatch cfgW [pW] [txWithMemo ("pre-" ++ pW.reference ++ "-suf")] = some pW ∧
    findMatch cfgW [pW] [txWithMemo "english-bot-9-999"] = none :=
  c5_native_rail_memo_policy cfgW pW "pre-" "-suf" [txWithMemo "english-bot-9-999"]
    (by decide)

/-- C6: the matcher scans pending payments most-recent-first (the stored
order is most-recent-last): when only the older `p1` matches the batch, the
result is `p1`, never spuriously the newer `p2`; when the newer `p2`
matches, it wins. -/
theorem c6_most_recent_first (cfg : Config) (p1 p2 : PendingPayment)
    (txs : List Transaction) :
    (paymentMatches cfg txs p2 = false → paymentMatches cfg txs p1 = true →
      findMatch cfg [p1, p2] txs = some p1) ∧
    (paymentMatches cfg txs p2 = true → findMatch cfg [p1, p2] txs = some p2) := by
  constructor
  · intro h2 h1
    simp [findMatch, h2, h1]
  · intro h2
    simp [findMatch, h2]

/-- C6 witness: with the older payment stored first and a batch matching
only its reference, the older payment is returned; with a memo containing
both references, the newer wins. -/
theorem c6_most_recent_first_witness :
    findMatch cfgW [pW, pW2] [txWithMemo refW] = some pW ∧
    findMatch cfgW [pW, pW2] [txWithMemo (refW ++ " " ++ refW2)] = some pW2 :=
  ⟨(c6_most_recent_first cfgW pW pW2 [txWithMemo refW]).1 (by decide) (by decide),
   (c6_most_recent_first cfgW pW pW2 [txWithMemo (refW ++ " " ++ refW2)]).2 (by decide)⟩

/-- A sequence of `record` calls equals one per-user fold of
append-then-keep-last-3 over the recorded payments. -/
theorem listPending_recordAll (u : String) (ps : List PendingPayment) :
    ∀ L, listPending (recordAll L u ps) u =
      ps.foldl (fun l p => sliceLast 3 (l ++ [p])) (listPending L u) := by
  induction ps with
  | nil => intro L; simp [recordAll]
  | cons p rest ih =>
    intro L
    have hstep : listPending (recordPayment L u p) u =
        sliceLast 3 (listPending L u ++ [p]) := by
      simp [recordPayment, listPending, mapLookup_mapSet_self]
    have hrec : recordAll L u (p :: rest) = recordAll (recordPayment L u p) u rest := by
      simp [recordAll]
    rw [hrec, ih (recordPayment L u p), hstep]
    simp

/-- C8: starting from a user with no ledger entry, any sequence of `record`
calls leaves exactly the most recent `min 3 n` payments, in creation order
(most-recent-last); the retained length never exceeds 3, and a single
`record` from any state restores the bound — the at-most-3 invariant. -/
theorem c8_ledger_keeps_last_three (L : List (String × List PendingPayment))
    (u : String) (ps : List PendingPayment)
    (h0 : mapLookup L u = none) :
    listPending (recordAll L u ps) u = (ps.reverse.take 3).reverse ∧
    (listPending (recordAll L u ps) u).length = min 3 ps.length ∧
    ∀ (L' : List (String × List PendingPayment)) (p : PendingPayment),
      (listPending (recordPayment L' u p) u).length ≤ 3 := by
  have hbase : listPending L u = [] := by simp [listPending, h0]
  have hfold := listPending_recordAll u ps L
  rw [hbase] at hfold
  rw [foldl_sliceLast ps [] (by simp)] at hfold
  simp only [List.nil_append] at hfold
  refine ⟨?_, ?_, ?_⟩
  · rw [hfold, sliceLast_eq_rtake]
  · rw [hfold, length_sliceLast]
  · intro L' p
    have hstep : listPending (recordPayment L' u p) u =
        sliceLast 3 (listPending L' u ++ [p]) := by
      simp [recordPayment, listPending, mapLookup_mapSet_self]
    rw [hstep, length_sliceLast]
    exact Nat.min_le_left _ _

/-- C8 witness: recording four payments for a fresh user retains exactly
the last three, in order. -/
theorem c8_ledger_keeps_last_three_witness :
    listPending (recordAll [] "7" [pW, pW2, pW3, pW4]) "7" =
      ([pW, pW2, pW3, pW4].reverse.take 3).reverse ∧
    (listPending (recordAll [] "7" [pW, pW2, pW3, pW4]) "7").length =
      min 3 [pW, pW2, pW3, pW4].length ∧
    (listPending (recordPayment [] "7" pW) "7").length ≤ 3 := by
  have h := c8_ledger_keeps_last_three [] "7" [pW, pW2, pW3, pW4] (by decide)
  exact ⟨h.1, h.2.1, h.2.2 [] pW⟩

/-- The source's per-message jetton check, written as an explicit
conjunction of its conditions. -/
theorem outMsgJetton_eq_true_iff (cfg : Config) (ref : String) (m : OutMsg) :
    outMsgJetton cfg ref m = true ↔
      m.source = true ∧ m.destination = true ∧
      ∃ db, m.decoded_body = some db ∧
      ∃ jt, db.jetton_transfer = some jt ∧
        jt.jetton_master_address = cfg.USDT_CONTRACT_ADDRESS ∧
        expectedMicroUsdt cfg ≤ jt.amount ∧
        jt.forward_ton_amount.isSome = true ∧
        ∃ payload, jt.forward_payload = some payload ∧
          (strContains payload ref = true ∨ payload = ref) := by
  unfold outMsgJetton
  cases hdb : m.decoded_body with
  | none => simp
  | some db =>
    cases hjt : db.jetton_transfer with
    | none => simp [hjt]
    | some jt =>
      cases hfp : jt.forward_payload with
      | none => simp [hjt, hfp]
      | some payload => simp [hjt, hfp, and_assoc]

/-- C2 counterexample: both outbound messages of `txCexC2` satisfy every
condition the claim lists for the token rail (right contract, sufficient
amount, payload equal to the reference), yet the code's token-rail check
rejects the whole transaction — the first message lacks
`forward_ton_amount`, the second has a falsy `source`. -/
theorem c2_counterexample :
    txCexC2.out_msgs.any (claimTokenCond cfgW refW) = true ∧
    (∀ m ∈ txCexC2.out_msgs, claimTokenCond cfgW refW m = true) ∧
    txJettonMatch cfgW refW txCexC2 = false ∧
    List.any [txCexC2] (txJettonMatch cfgW refW) = false := by
  decide

/-- C2 (amended): for a batch of ledger transactions, the token-rail check
reports a match iff some transaction has an outbound message with truthy
`source` and `destination` fields whose decoded body is a jetton transfer
whose master contract equals the configured USDT contract, whose amount is
at least the expected token amount, whose `forward_ton_amount` is present
(truthy), and whose forward payload contains — or equals — the payment's
reference. -/
theorem c2_token_rail_amended (cfg : Config) (ref : String)
    (txs : List Transaction) :
    txs.any (txJettonMatch cfg ref) = true ↔
      ∃ tx ∈ txs, ∃ m ∈ tx.out_msgs,
        m.source = true ∧ m.destination = true ∧
        ∃ db, m.decoded_body = some db ∧
        ∃ jt, db.jetton_transfer = some jt ∧
          jt.jetton_master_address = cfg.USDT_CONTRACT_ADDRESS ∧
          expectedMicroUsdt cfg ≤ jt.amount ∧
          jt.forward_ton_amount.isSome = true ∧
          ∃ payload, jt.forward_payload = some payload ∧
            (strContains payload ref = true ∨ payload = ref) := by
  simp [List.any_eq_true, txJettonMatch, outMsgJetton_eq_true_iff]

/-- Fan-out distributes over list append: later users are processed exactly
as they would be on their own, whatever happened to earlier users. -/
theorem fanoutUsers_append (cache : Nat → Option Sentence) (saveOk : Nat → Bool) :
    ∀ (us1 us2 : List DUser) (i : Nat),
      fanoutUsers cache saveOk i (us1 ++ us2) =
        fanoutUsers cache saveOk i us1 ++
          fanoutUsers cache saveOk (i + us1.length) us2 := by
  intro us1
  induction us1 with
  | nil => intro us2 i; simp [fanoutUsers]
  | cons u rest ih =>
    intro us2 i
    have harith : i + (u :: rest).length = (i + 1) + rest.length := by
      simp [List.length_cons]
      omega
    simp only [List.cons_append, fanoutUsers, List.append_eq, harith, ih us2 (i + 1)]
    cases cache u.difficulty_level with
    | none => rfl
    | some s =>
      cases saveOk i with
      | false => rfl
      | true =>
        cases jsParseInt u.telegram_user_id with
        | none => rfl
        | some c => rfl

theorem countChat_append (a b : List (Int × String)) (c : Int) :
    countChat (a ++ b) c = countChat a c + countChat b c := by
  simp [countChat, List.filter_append]

/-- Users none of whom parse to chat `c` contribute no enqueue for `c`. -/
theorem countChat_fanout_zero (cache : Nat → Option Sentence) (saveOk : Nat → Bool)
    (c : Int) :
    ∀ (us : List DUser) (i : Nat),
      (∀ u ∈ us, jsParseInt u.telegram_user_id ≠ some c) →
      countChat (fanoutUsers cache saveOk i us) c = 0 := by
  intro us
  induction us with
  | nil => intro i _; simp [fanoutUsers, countChat]
  | cons u rest ih =>
    intro i h
    have hrest := ih (i + 1) (fun v hv => h v (by simp [hv]))
    simp only [fanoutUsers]
    cases cache u.difficulty_level with
    | none => exact hrest
    | some s =>
      cases saveOk i with
      | false => exact hrest
      | true =>
        cases hp : jsParseInt u.telegram_user_id with
        | none => exact hrest
        | some c' =>
          have hne : c' ≠ c := by
            intro he
            exact h u (by simp) (by rw [hp, he])
          simp only [countChat] at hrest ⊢
          rw [if_pos trivial, List.filter_cons_of_neg (by simp [hne])]
          exact hrest

/-- C9 (amended): in one fan-out run, an eligible user whose tier's
generation succeeded, whose per-user content-record persist succeeded, and
whose stored id parses to a chat number receives exactly one enqueue,
carrying that tier's cached rendered content (so users at one tier receive
identical content); a user whose tier's generation failed receives none;
and the trace decomposes per user — a failure affecting earlier users never
disturbs the processing of later ones, and the run, being a total function
of its oracles, always completes. -/
theorem c9_fanout_amended (gen : Nat → Option Sentence) (saveOk : Nat → Bool)
    (users : List DUser) (i : Nat) (u : DUser) (c : Int)
    (hu : users[i]? = some u)
    (hparse : jsParseInt u.telegram_user_id = some c)
    (hnodup : (users.filterMap (fun v => jsParseInt v.telegram_user_id)).Nodup) :
    (∀ s, buildCache gen u.difficulty_level = some s → saveOk i = true →
      countChat (sendDailyMessages gen saveOk users) c = 1 ∧
      (c, createDailyMessage s) ∈ sendDailyMessages gen saveOk users) ∧
    (buildCache gen u.difficulty_level = none →
      countChat (sendDailyMessages gen saveOk users) c = 0) ∧
    (∀ us1 us2, users = us1 ++ us2 →
      sendDailyMessages gen saveOk users =
        sendDailyMessages gen saveOk us1 ++
          fanoutUsers (buildCache gen) saveOk us1.length us2) := by
  obtain ⟨hi, hgete⟩ := List.getElem?_eq_some_iff.mp hu
  subst hgete
  have hsplit : users = users.take i ++ users[i] :: users.drop (i + 1) := by
    conv_lhs => rw [← List.take_append_drop i users]
    rw [List.drop_eq_getElem_cons hi]
  have hlen1 : (users.take i).length = i := by
    rw [List.length_take]
    omega
  have hmapsplit : users.filterMap (fun v => jsParseInt v.telegram_user_id) =
      (users.take i).filterMap (fun v => jsParseInt v.telegram_user_id) ++
        c :: (users.drop (i + 1)).filterMap (fun v => jsParseInt v.telegram_user_id) := by
    conv_lhs => rw [hsplit]
    rw [List.filterMap_append]
    congr 1
    exact List.filterMap_cons_some hparse
  rw [hmapsplit] at hnodup
  have hdisj := List.disjoint_of_nodup_append hnodup
  have hnA : ∀ v ∈ users.take i, jsParseInt v.telegram_user_id ≠ some c := by
    intro v hv he
    exact hdisj (List.mem_filterMap.mpr ⟨v, hv, he⟩) (List.mem_cons_self _ _)
  have hnB : ∀ v ∈ users.drop (i + 1), jsParseInt v.telegram_user_id ≠ some c := by
    intro v hv he
    have hcB := (List.nodup_append.mp hnodup).2.1
    exact (List.Nodup.not_mem hcB) (List.mem_filterMap.mpr ⟨v, hv, he⟩)
  have htrace : sendDailyMessages gen saveOk users =
      fanoutUsers (buildCache gen) saveOk 0 (users.take i) ++
        fanoutUsers (buildCache gen) saveOk i (users[i] :: users.drop (i + 1)) := by
    unfold sendDailyMessages
    conv_lhs => rw [hsplit]
    rw [fanoutUsers_append (buildCache gen) saveOk (users.take i)
      (users[i] :: users.drop (i + 1)) 0, hlen1, Nat.zero_add]
  have hzeroA := countChat_fanout_zero (buildCache gen) saveOk c (users.take i) 0 hnA
  have hzeroB := countChat_fanout_zero (buildCache gen) saveOk c
    (users.drop (i + 1)) (i + 1) hnB
  refine ⟨?_, ?_, ?_⟩
  · intro s hs hsave
    have hfan : fanoutUsers (buildCache gen) saveOk i (users[i] :: users.drop (i + 1)) =
        (c, createDailyMessage s) ::
          fanoutUsers (buildCache gen) saveOk (i + 1) (users.drop (i + 1)) := by
      simp [fanoutUsers, hs, hsave, hparse]
    constructor
    · rw [htrace, countChat_append, hzeroA, hfan]
      simp only [countChat] at hzeroB ⊢
      simp [List.filter_cons, hzeroB]
    · rw [htrace, hfan]
      exact List.mem_append_right _ (List.mem_cons_self _ _)
  · intro hnone
    have hfan : fanoutUsers (buildCache gen) saveOk i (users[i] :: users.drop (i + 1)) =
        fanoutUsers (buildCache gen) saveOk (i + 1) (users.drop (i + 1)) := by
      simp [fanoutUsers, hnone]
    rw [htrace, countChat_append, hzeroA, hfan, hzeroB]
  · intro us1 us2 hus
    unfold sendDailyMessages
    conv_lhs => rw [hus]
    rw [fanoutUsers_append (buildCache gen) saveOk us1 us2 0, Nat.zero_add]

/-- C9 counterexample: a tier-1 user whose tier's generation succeeded but
whose per-user content-record persist failed receives no enqueue (the claim
predicts exactly one); likewise a user whose stored id does not parse to a
chat number. Both runs still complete, with an empty trace. -/
theorem c9_counterexample :
    buildCache genCexC9 1 = some sA ∧
    sendDailyMessages genCexC9 (fun _ => false) [⟨"7", 1⟩] = [] ∧
    sendDailyMessages genCexC9 (fun _ => true) [⟨"x", 1⟩] = [] := by
  decide

/-- C9 witness: the spec's tiers-{1,1,3} fan-out scenario with generation
succeeding for tiers 1 and 3 and all persists succeeding — the first tier-1
user receives exactly one enqueue, carrying the tier-1 rendering. -/
theorem c9_fanout_amended_witness :
    countChat (sendDailyMessages genW (fun _ => true) usersW) 1 = 1 ∧
    (1, createDailyMessage sA) ∈ sendDailyMessages genW (fun _ => true) usersW :=
  (c9_fanout_amended genW (fun _ => true) usersW 0 ⟨"1", 1⟩ 1
    (by decide) (by decide) (by decide)).1 sA (by decide) (by decide)

end Eigobot
